import Mathlib

/-!
Shallow embedding of the Geppetto repository (Python 3) for verification.

Covered source:
* `src/IO/Gadget/ReadSubFind.py` — `myswap`, `guess_format`, `catalog.__init__`,
  `catalog.read_IDs`: a byte-level model of the segmented SubFind catalog reader.
* `src/PLC/fullplcfiner.py` — the distributed light-cone pipeline: the
  divisibility precondition, the per-shell histogram lifecycle across
  snapshots, and the accretion-redshift mask feeding the pixel histogram.

Modelling conventions:
* A binary file is a `List Nat` of bytes.  "Native" integer reading is
  little-endian (`leVal`); numpy's `byteswap` is the per-scalar byte reversal.
* `np.fromfile(f, dtype, count)` reads `min count avail` whole items and
  advances the position; the file is threaded as its unread suffix.
* numpy arrays of items are `List Bytes` (one byte-chunk per item);
  `np.empty(n)` is `List.replicate n none` (uninitialised cells),
  `none` marking a cell never written.
* Python exceptions and fatal error paths are the `PyErr` error monad.
* The directory tree is a `FS` record; the files of one path template are a
  `List Bytes`, file `.k` existing exactly for `k <` the list length, so the
  source's probe loop (`while os.path.exists(fname+".%d"%n)`) counts the
  list length.
* The repository runs under Python 3 (`FileNotFoundError`, `FileExistsError`
  are used in `src/params.py` and `src/PLC/fullplcfiner.py`); consequences of
  Python-2 leftovers (`long(0)`, one-argument `myswap` calls) are modelled as
  the exceptions Python 3 raises.
-/

set_option maxRecDepth 8000
set_option maxHeartbeats 2000000

deriving instance DecidableEq for Except

namespace Geppetto

/-- A binary file: a list of bytes. -/
abbrev Bytes := List Nat

/-- Little-endian ("native") unsigned value of a byte string. -/
def leVal : Bytes → Nat
  | [] => 0
  | b :: t => b + 256 * leVal t

/-- Fuelled splitting of a byte string into consecutive chunks of `w` bytes
(the final chunk may be short).  The fuel is the list length, so the
recursion is structural and kernel-reducible. -/
def chunksGo (w : Nat) : Nat → List Nat → List (List Nat)
  | _, [] => []
  | 0, _ :: _ => []
  | fuel + 1, x :: t => ((x :: t).take w) :: chunksGo w fuel ((x :: t).drop w)

/-- Split a byte string into consecutive `w`-byte chunks. -/
def chunksOf (w : Nat) (l : List Nat) : List (List Nat) := chunksGo w l.length l

/-- `ndarray.byteswap` on one item whose scalar elements are `w` bytes wide:
each `w`-byte scalar inside the item has its bytes reversed (numpy swaps per
scalar element, so a `(np.float32, 3)` item of 12 bytes is swapped in three
4-byte groups). -/
def swapItem (w : Nat) (item : Bytes) : Bytes :=
  ((chunksOf w item).map List.reverse).flatten

/-- `myswap(a, flag)` from `ReadSubFind.py` (lines 51-55): byteswap the array
when `flag` is set, else return it unchanged.  `w` is the scalar width of the
array's dtype, implicit in the Python array object. -/
def myswap (w : Nat) (a : List Bytes) (flag : Bool) : List Bytes :=
  if flag then a.map (swapItem w) else a

/-- `np.fromfile(f, dtype, count)` on the unread suffix `rem` of a file:
reads `min count avail` whole items of `isz` bytes (numpy silently returns a
short array when the file has fewer than `count` items; a negative `count`
means "read to the end").  Returns the items and the new unread suffix. -/
def npFromfile (isz : Nat) (count : Int) (rem : Bytes) : List Bytes × Bytes :=
  let avail := rem.length / isz
  let k := if count < 0 then avail else min count.toNat avail
  (chunksOf isz (rem.take (k * isz)), rem.drop (k * isz))

/-- Signed 32-bit (numpy `int32`) value of a 4-byte little-endian item. -/
def i32Val (b : Bytes) : Int :=
  let v := leVal b
  if v < 2 ^ 31 then (v : Int) else (v : Int) - 2 ^ 32

/-! ## Filesystem model and `guess_format` -/

/-- The directory tree probed by `guess_format` for snapshot `snapnum`.
Each candidate template is the list of its segment files `.0`, `.1`, …
(contiguous by construction, matching the probe loop).  The snapshot-format
branch delegates to the external `Snapshot.py` library (not part of the
repository core); its outcome is abstracted by `snapOk`/`snapSwap`. -/
structure FS where
  /-- `postproc_SNAP/sub_tab_SNAP.k` — LEGACY ("old") format, `myformat = 0`. -/
  legacyTab : List Bytes
  /-- `groups_SNAP/subhalo_tab_SNAP.k` — EXTENDED (GADGET3) format, `myformat = 1`. -/
  extTab : List Bytes
  /-- `groups_SNAP/sub_SNAP.k` — SNAPSHOT-EMBEDDED format, `myformat = 2`. -/
  snapTab : List Bytes
  /-- number of sibling FoF `groups_SNAP/group_tab_SNAP.k` files (`test`). -/
  groupTabCount : Nat
  /-- `postproc_SNAP/sub_ids_SNAP.k` ID segments (LEGACY). -/
  legacyIds : List Bytes
  /-- `groups_SNAP/subhalo_ids_SNAP.k` ID segments (EXTENDED). -/
  extIds : List Bytes
  /-- `Snapshot.Init` recognises the snapshot-embedded file (`format != -99`). -/
  snapOk : Bool
  /-- byte-order flag reported by `Snapshot.Init`. -/
  snapSwap : Bool
  deriving DecidableEq

/-- Error outcomes of `guess_format`.  The source signals them by printing an
ERROR message and returning `None`; the spec names them `FormatNotFoundError`
("Subfind files not found") and `UnrecognizedFormatError` ("I do not
understand the format of file ..."). -/
inductive GuessErr
  | formatNotFound
  | unrecognizedFormat
  /-- `np.fromfile(...)[0]` on an empty read: the header field is missing. -/
  | indexError
  deriving DecidableEq

/-- Read the 32-bit unsigned field at byte offset `off` of a file
(`f.seek(off); np.fromfile(f, np.uint32, 1)[0]`); `none` when fewer than
4 bytes remain (`IndexError` on the `[0]`). -/
def readU32At (f : Bytes) (off : Nat) : Option Bytes :=
  (npFromfile 4 1 (f.drop off)).1.head?

/-- `guess_format(basedir, snapnum)` (`ReadSubFind.py` lines 58-186): probe
the three path templates in order LEGACY, EXTENDED, SNAPSHOT-EMBEDDED; take
the first whose `.0` file exists; count its segment files; then determine the
byte order from the 32-bit file-count header field (offset 12 for LEGACY,
offset 20 for EXTENDED).  Returns `(nfiles, myformat, swap)`.

Note the LEGACY branch compares the raw field against `test`, the number of
sibling `group_tab` files, while the byte-swapped comparison and the EXTENDED
branch use `nfiles` (the in-code comment says the field "should be =nfiles"). -/
def guessFormat (fs : FS) : Except GuessErr (Nat × Nat × Bool) :=
  match fs.legacyTab with
  | f0 :: rest =>
    let nfiles := (f0 :: rest).length
    let test := fs.groupTabCount
    match readU32At f0 12 with
    | none => .error .indexError
    | some number =>
      if leVal number = test then .ok (nfiles, 0, false)
      else if leVal number.reverse = nfiles then .ok (nfiles, 0, true)
      else .error .unrecognizedFormat
  | [] =>
    match fs.extTab with
    | f0 :: rest =>
      let nfiles := (f0 :: rest).length
      -- the sibling `group_tab` count is probed here too, but only printed
      match readU32At f0 20 with
      | none => .error .indexError
      | some number =>
        if leVal number = nfiles then .ok (nfiles, 1, false)
        else if leVal number.reverse = nfiles then .ok (nfiles, 1, true)
        else .error .unrecognizedFormat
    | [] =>
      match fs.snapTab with
      | _ :: rest =>
        if fs.snapOk then .ok ((List.length rest) + 1, 2, fs.snapSwap)
        else .error .unrecognizedFormat
      | [] => .error .formatNotFound

/-! ## The `catalog` object and its tab-file reader -/

/-- Python exceptions and fatal error paths met by the embedded code. -/
inductive PyErr
  /-- e.g. subscripting `None` (`gform[1]` when `guess_format` returned
  `None`), or calling 2-parameter `myswap` with a single argument. -/
  | typeError
  /-- numpy shape mismatch on slice assignment, negative `np.empty`
  dimension, or tuple unpacking of the wrong number of items. -/
  | valueError
  /-- indexing `[0]` into an empty array. -/
  | indexError
  /-- an undefined name, e.g. `long` under Python 3. -/
  | nameError
  /-- accessing an attribute never set on the object. -/
  | attributeError
  /-- reading a persisted map file that does not exist. -/
  | ioError
  deriving DecidableEq

/-- One aggregate array attribute: a cell is `none` while it still holds the
uninitialised garbage of `np.empty`, and `some item` once a segment's block
was written into it. -/
abbrev Arr := List (Option Bytes)

/-- Keyword options of `ReadSubFind.catalog(...)` with the source defaults. -/
structure Opts where
  long_IDs : Bool := false
  SaveMassTab : Bool := true
  SOVelDisp : Bool := false
  ConTermination : Bool := false
  deriving DecidableEq

/-- The attribute state of a `ReadSubFind.catalog` object.  Every attribute
is `Option`-valued: `none` until the corresponding `self.X = ...` assignment
has run (Python objects gain attributes dynamically). -/
structure Catalog where
  swap : Option Bool := none
  myformat : Option Nat := none
  Nfiles : Option Nat := none
  long_IDs : Option Bool := none
  TotNgroups : Option Int := none
  TotNids : Option Int := none
  TotNsubhalos : Option Int := none
  NsubPerHalo : Option Arr := none
  FirstSubOfHalo : Option Arr := none
  SubLen : Option Arr := none
  SubOffset : Option Arr := none
  SubParentHalo : Option Arr := none
  Halo_M_Mean200 : Option Arr := none
  Halo_R_Mean200 : Option Arr := none
  Halo_M_Crit200 : Option Arr := none
  Halo_R_Crit200 : Option Arr := none
  Halo_M_TopHat200 : Option Arr := none
  Halo_R_TopHat200 : Option Arr := none
  SubPos : Option Arr := none
  SubVel : Option Arr := none
  SubVelDisp : Option Arr := none
  SubVmax : Option Arr := none
  SubSpin : Option Arr := none
  SubMostBoundID : Option Arr := none
  SubHalfMass : Option Arr := none
  SubMassTab : Option Arr := none
  HaloCont : Option Arr := none
  HaloLen : Option Arr := none
  HaloMemberID : Option Arr := none
  HaloMass : Option Arr := none
  HaloPos : Option Arr := none
  VelDisp_Mean200 : Option Arr := none
  VelDisp_Crit200 : Option Arr := none
  VelDisp_TopHat200 : Option Arr := none
  HaloContCount : Option Arr := none
  SubTMass : Option Arr := none
  SubCM : Option Arr := none
  SubVmaxRad : Option Arr := none
  SubGroupNumber : Option Arr := none
  GroupIDs : Option Arr := none
  deriving DecidableEq

/-- Python slice endpoint normalisation for a sequence of length `n`:
negative indices count from the end, then both ends clamp into `[0, n]`. -/
def pyIdx (n : Nat) (i : Int) : Nat :=
  if i < 0 then ((n : Int) + i).toNat else min i.toNat n

/-- numpy slice assignment `arr[a:b] = vals`: the value array must have
exactly the slice's length, except that a length-1 array broadcasts over the
whole slice; any other mismatch raises `ValueError`. -/
def assignSlice (arr : Arr) (a b : Int) (vals : List Bytes) : Except PyErr Arr :=
  let lo := pyIdx arr.length a
  let hi := pyIdx arr.length b
  let len := hi - lo
  match vals with
  | [v] => .ok (arr.take lo ++ List.replicate len (some v) ++ arr.drop (lo + len))
  | _ =>
    if vals.length = len then
      .ok (arr.take lo ++ vals.map some ++ arr.drop (lo + len))
    else .error .valueError

/-- One `self.X[loc] = myswap(np.fromfile(f, dtype, count), self.swap)` line:
read `count` items of `isz` bytes (scalar width `atomW`), byteswap if asked,
assign into the `[a:b]` slice of the attribute (`AttributeError` if the
attribute was never allocated). -/
def readInto (isz atomW : Nat) (count : Int) (swap : Bool) (a b : Int)
    (arr : Option Arr) (rem : Bytes) : Except PyErr (Arr × Bytes) := do
  match arr with
  | none => .error .attributeError
  | some ar =>
    let (items, rem') := npFromfile isz count rem
    let ar' ← assignSlice ar a b (myswap atomW items swap)
    .ok (ar', rem')

/-- The header of one EXTENDED (`myformat == 1`) tab segment, plus the unread
remainder of the file (`ReadSubFind.py` lines 252-255): three `int32`, one
`uint64`, three `uint32`, each block read through `myswap(..., self.swap)`.
Tuple unpacking of the wrong number of items raises `ValueError`; `[0]` on an
empty read raises `IndexError`. -/
structure Hdr1 where
  Ngroups : Int
  TotNgroups : Int
  Nids : Int
  TotNids : Int
  Nfiles : Int
  Nsubhalos : Int
  TotNsubhalos : Int
  rem : Bytes
  deriving DecidableEq

/-- Parse the EXTENDED segment header (see `Hdr1`). -/
def parseHeader1 (swap : Bool) (file : Bytes) : Except PyErr Hdr1 :=
  let (h3, rem) := npFromfile 4 3 file
  match myswap 4 h3 swap with
  | [gB, tgB, niB] =>
    let (h64, rem2) := npFromfile 8 1 rem
    match (myswap 8 h64 swap).head? with
    | none => .error .indexError
    | some tniB =>
      let (h3b, rem3) := npFromfile 4 3 rem2
      match myswap 4 h3b swap with
      | [nfB, nsB, tnsB] =>
        .ok { Ngroups := i32Val gB, TotNgroups := i32Val tgB, Nids := i32Val niB,
              TotNids := (leVal tniB : Int),
              Nfiles := (leVal nfB : Int), Nsubhalos := (leVal nsB : Int),
              TotNsubhalos := (leVal tnsB : Int), rem := rem3 }
      | _ => .error .valueError
  | _ => .error .valueError

/-- The declared group count of an EXTENDED segment's header (0 when the
header does not even parse — only used under a successful-read hypothesis). -/
def segNgroups1 (swap : Bool) (file : Bytes) : Int :=
  match parseHeader1 swap file with
  | .ok h => h.Ngroups
  | .error _ => 0

/-- The declared subhalo count of an EXTENDED segment's header. -/
def segNsubhalos1 (swap : Bool) (file : Bytes) : Int :=
  match parseHeader1 swap file with
  | .ok h => h.Nsubhalos
  | .error _ => 0

/-- The `if fnb == 0:` allocation block (`ReadSubFind.py` lines 295-331) for
an EXTENDED catalog: every aggregate array is `np.empty` of the header totals
(`ValueError` as soon as a total is negative), the optional arrays gated by
the caller-supplied flags, and the `myformat == 1` extras always allocated. -/
def allocArrays1 (o : Opts) (c : Catalog) : Except PyErr Catalog :=
  match c.TotNgroups, c.TotNsubhalos with
  | some tg, some ts =>
    if tg < 0 ∨ ts < 0 then .error .valueError
    else
      let g : Arr := List.replicate tg.toNat none
      let s : Arr := List.replicate ts.toNat none
      .ok { c with
        NsubPerHalo := some g, FirstSubOfHalo := some g,
        SubLen := some s, SubOffset := some s, SubParentHalo := some s,
        Halo_M_Mean200 := some g, Halo_R_Mean200 := some g,
        Halo_M_Crit200 := some g, Halo_R_Crit200 := some g,
        Halo_M_TopHat200 := some g, Halo_R_TopHat200 := some g,
        SubPos := some s, SubVel := some s, SubVelDisp := some s,
        SubVmax := some s, SubSpin := some s, SubMostBoundID := some s,
        SubHalfMass := some s,
        SubMassTab := if o.SaveMassTab then some s else c.SubMassTab,
        HaloCont := if o.ConTermination then some g else c.HaloCont,
        HaloLen := some g, HaloMemberID := some g, HaloMass := some g,
        HaloPos := some g,
        VelDisp_Mean200 := if o.SOVelDisp then some g else c.VelDisp_Mean200,
        VelDisp_Crit200 := if o.SOVelDisp then some g else c.VelDisp_Crit200,
        VelDisp_TopHat200 := if o.SOVelDisp then some g else c.VelDisp_TopHat200,
        HaloContCount := some g, SubTMass := some s, SubCM := some s,
        SubVmaxRad := some s, SubGroupNumber := some s }
  | _, _ => .error .attributeError

/-- The `if Ngroups > 0:` body of one EXTENDED tab segment
(`ReadSubFind.py` lines 361-396), with `locG = slice(skipG, skipG+Ngroups)`
and `locS = slice(skipS, skipS+Nsubhalos)`.  Every `np.fromfile` is passed
`count=self.TotNgroups` (resp. `count=self.TotNsubhalos`) — the catalog-wide
totals held in the attributes, exactly as in the source — while the target
slice is only `Ngroups` (resp. `Nsubhalos`) wide.  `tg`/`ts` are those
attribute values, `gA gB`/`sA sB` the slice endpoints, `idW` the particle-ID
item width (`uint64` for `long_IDs` else `uint32`). -/
def body1Group (o : Opts) (swap : Bool) (tg : Int) (gA gB : Int)
    (c : Catalog) (rem : Bytes) : Except PyErr (Catalog × Bytes) := do
  let (a, rem) ← readInto 4 4 tg swap gA gB c.HaloLen rem
  let c := { c with HaloLen := some a }
  let (a, rem) ← readInto 4 4 tg swap gA gB c.HaloMemberID rem
  let c := { c with HaloMemberID := some a }
  let (a, rem) ← readInto 4 4 tg swap gA gB c.HaloMass rem
  let c := { c with HaloMass := some a }
  let (a, rem) ← readInto 12 4 tg swap gA gB c.HaloPos rem
  let c := { c with HaloPos := some a }
  let (a, rem) ← readInto 4 4 tg swap gA gB c.Halo_M_Mean200 rem
  let c := { c with Halo_M_Mean200 := some a }
  let (a, rem) ← readInto 4 4 tg swap gA gB c.Halo_R_Mean200 rem
  let c := { c with Halo_R_Mean200 := some a }
  let (a, rem) ← readInto 4 4 tg swap gA gB c.Halo_M_Crit200 rem
  let c := { c with Halo_M_Crit200 := some a }
  let (a, rem) ← readInto 4 4 tg swap gA gB c.Halo_R_Crit200 rem
  let c := { c with Halo_R_Crit200 := some a }
  let (a, rem) ← readInto 4 4 tg swap gA gB c.Halo_M_TopHat200 rem
  let c := { c with Halo_M_TopHat200 := some a }
  let (a, rem) ← readInto 4 4 tg swap gA gB c.Halo_R_TopHat200 rem
  let c := { c with Halo_R_TopHat200 := some a }
  let (c, rem) ←
    if o.SOVelDisp then do
      let (a, rem) ← readInto 4 4 tg swap gA gB c.VelDisp_Mean200 rem
      let c := { c with VelDisp_Mean200 := some a }
      let (a, rem) ← readInto 4 4 tg swap gA gB c.VelDisp_Crit200 rem
      let c := { c with VelDisp_Crit200 := some a }
      let (a, rem) ← readInto 4 4 tg swap gA gB c.VelDisp_TopHat200 rem
      pure ({ c with VelDisp_TopHat200 := some a }, rem)
    else pure (c, rem)
  let (a, rem) ← readInto 4 4 tg swap gA gB c.HaloContCount rem
  let c := { c with HaloContCount := some a }
  let (c, rem) ←
    if o.ConTermination then do
      let (a, rem) ← readInto 4 4 tg swap gA gB c.HaloCont rem
      pure ({ c with HaloCont := some a }, rem)
    else pure (c, rem)
  let (a, rem) ← readInto 4 4 tg swap gA gB c.NsubPerHalo rem
  let c := { c with NsubPerHalo := some a }
  let (a, rem) ← readInto 4 4 tg swap gA gB c.FirstSubOfHalo rem
  pure ({ c with FirstSubOfHalo := some a }, rem)

/-- Subhalo-indexed fields of the `if Ngroups > 0:` body (source order,
lines 381-396). -/
def body1Sub (o : Opts) (swap : Bool) (ts : Int) (sA sB : Int)
    (c : Catalog) (rem : Bytes) : Except PyErr Catalog := do
  let idW : Nat := if o.long_IDs then 8 else 4
  let (a, rem) ← readInto 4 4 ts swap sA sB c.SubLen rem
  let c := { c with SubLen := some a }
  let (a, rem) ← readInto 4 4 ts swap sA sB c.SubOffset rem
  let c := { c with SubOffset := some a }
  let (a, rem) ← readInto 4 4 ts swap sA sB c.SubParentHalo rem
  let c := { c with SubParentHalo := some a }
  let (a, rem) ← readInto 4 4 ts swap sA sB c.SubTMass rem
  let c := { c with SubTMass := some a }
  let (a, rem) ← readInto 12 4 ts swap sA sB c.SubPos rem
  let c := { c with SubPos := some a }
  let (a, rem) ← readInto 12 4 ts swap sA sB c.SubVel rem
  let c := { c with SubVel := some a }
  let (a, rem) ← readInto 12 4 ts swap sA sB c.SubCM rem
  let c := { c with SubCM := some a }
  let (a, rem) ← readInto 12 4 ts swap sA sB c.SubSpin rem
  let c := { c with SubSpin := some a }
  let (a, rem) ← readInto 4 4 ts swap sA sB c.SubVelDisp rem
  let c := { c with SubVelDisp := some a }
  let (a, rem) ← readInto 4 4 ts swap sA sB c.SubVmax rem
  let c := { c with SubVmax := some a }
  let (a, rem) ← readInto 4 4 ts swap sA sB c.SubVmaxRad rem
  let c := { c with SubVmaxRad := some a }
  let (a, rem) ← readInto 4 4 ts swap sA sB c.SubHalfMass rem
  let c := { c with SubHalfMass := some a }
  let (a, rem) ← readInto idW idW ts swap sA sB c.SubMostBoundID rem
  let c := { c with SubMostBoundID := some a }
  let (a, rem) ← readInto 4 4 ts swap sA sB c.SubGroupNumber rem
  let c := { c with SubGroupNumber := some a }
  if o.SaveMassTab then do
    let (a, _) ← readInto 24 4 ts swap sA sB c.SubMassTab rem
    pure { c with SubMassTab := some a }
  else pure c

/-- The full `if Ngroups > 0:` body: group-indexed fields then
subhalo-indexed fields, in source order. -/
def body1Read (o : Opts) (swap : Bool) (tg ts : Int) (gA gB sA sB : Int)
    (c : Catalog) (rem : Bytes) : Except PyErr Catalog := do
  let (c, rem) ← body1Group o swap tg gA gB c rem
  body1Sub o swap ts sA sB c rem

/-- Allocation plus body of one EXTENDED segment, between the header parse
and the unconditional offset update.  The `count` attributes
`self.TotNgroups`/`self.TotNsubhalos` are fetched from the object
(`AttributeError` if absent; they are set at `fnb == 0`). -/
def tabSegMiddle1 (o : Opts) (swap : Bool) (fnb : Nat) (skipG skipS : Int)
    (h : Hdr1) (c : Catalog) : Except PyErr Catalog := do
  let c ← if fnb = 0 then allocArrays1 o c else .ok c
  if h.Ngroups > 0 then
    match c.TotNgroups, c.TotNsubhalos with
    | some tg, some ts =>
      body1Read o swap tg ts skipG (skipG + h.Ngroups) skipS (skipS + h.Nsubhalos) c h.rem
    | _, _ => .error .attributeError
  else .ok c

/-- The local state of the `while not(Final)` tab loop: the object under
construction plus the running offsets `skipG`, `skipS`. -/
structure TabLoop where
  cat : Catalog
  skipG : Int
  skipS : Int
  deriving DecidableEq

/-- One iteration of the tab loop for an EXTENDED catalog
(`ReadSubFind.py` lines 250-407): parse the header; at `fnb == 0` commit
`TotNgroups`, `TotNids`, `TotNsubhalos` to the object; allocate (first
segment) and read the body; finally advance `skipG += Ngroups`,
`skipS += Nsubhalos` unconditionally.  The `if self.swap:` block of lines
259-267 calls `.byteswap()` on numpy scalars and discards the results (the
header values were already swapped by `myswap`), so it changes nothing and is
not represented.  The `Nfiles != nfiles` check and the EOF check only print
warnings. -/
def tabSegment1 (o : Opts) (swap : Bool) (fnb : Nat) (st : TabLoop)
    (file : Bytes) : Except PyErr TabLoop :=
  match parseHeader1 swap file with
  | .error e => .error e
  | .ok h =>
    let c := if fnb = 0 then
        { st.cat with TotNgroups := some h.TotNgroups, TotNids := some h.TotNids,
                      TotNsubhalos := some h.TotNsubhalos }
      else st.cat
    match tabSegMiddle1 o swap fnb st.skipG st.skipS h c with
    | .error e => .error e
    | .ok c' => .ok ⟨c', st.skipG + h.Ngroups, st.skipS + h.Nsubhalos⟩

/-- The tab loop over the segment files `fnb = fnb0, fnb0+1, ...` (the loop
of the source runs `fnb` from 0 and stops at `fnb == self.Nfiles`, which is
the number of segment files). -/
def tabReadAux (o : Opts) (swap : Bool) : Nat → TabLoop → List Bytes →
    Except PyErr TabLoop
  | _, st, [] => .ok st
  | fnb, st, f :: rest => do
    let st' ← tabSegment1 o swap fnb st f
    tabReadAux o swap (fnb + 1) st' rest

/-- The attribute state after the pre-loop assignments of
`catalog.__init__` for an EXTENDED catalog (lines 223-234): `swap`,
`Nfiles`, `myformat`, `long_IDs` (and `id_format`, carried by `long_IDs`). -/
def initTabLoop (o : Opts) (swap : Bool) (nfiles : Nat) : TabLoop :=
  ⟨{ swap := some swap, myformat := some 1, Nfiles := some nfiles,
     long_IDs := some o.long_IDs }, 0, 0⟩

/-- `catalog.__init__(basedir, snapnum, ...)` (`ReadSubFind.py` lines
204-408), over the filesystem `fs`:

* `guess_format` returning `None` makes line 214 (`gform[1]`) raise
  `TypeError` (subscripting `None`) before the `gform == None` check of
  line 219 can run;
* a SNAPSHOT-EMBEDDED catalog (`gform[1] == 2`) stores only `myformat` and
  `swap` and returns at once (line 217), leaving every other attribute
  unset;
* a LEGACY catalog reaches line 247, `self.TotNids = long(0)`, and `long`
  does not exist under Python 3: `NameError`, so the LEGACY tab loop is
  unreachable;
* an EXTENDED catalog runs the tab loop over its segment files. -/
def catalogInit (fs : FS) (o : Opts) : Except PyErr Catalog :=
  match guessFormat fs with
  | .error _ => .error .typeError
  | .ok (nfiles, mf, sw) =>
    if mf = 2 then .ok { myformat := some 2, swap := some sw }
    else if mf = 0 then .error .nameError
    else
      match tabReadAux o sw 0 (initTabLoop o sw nfiles) fs.extTab with
      | .error e => .error e
      | .ok st => .ok st.cat

/-! ## `catalog.read_IDs` -/

/-- `myswap(a)` called with a single argument.  `myswap(a, flag)` takes two
positional parameters with no defaults, so Python raises
`TypeError: myswap() missing 1 required positional argument: 'flag'`
at the call site.  Every `np.fromfile` in `read_IDs` (lines 427-431 and
468-470) goes through such a one-argument call. -/
def myswapOneArg (_a : List Bytes) : Except PyErr (List Bytes) := .error .typeError

/-- Outcome of one ID-segment iteration: continue the loop with the updated
object and offset, or the early `return None` taken on a totals mismatch
(lines 446-452), which leaves the method with the object as it stands. -/
inductive IdsOutcome
  | next (c : Catalog) (skip : Int)
  | earlyReturn (c : Catalog)

/-- One iteration of the `read_IDs` loop (`ReadSubFind.py` lines 424-485):
header read (through one-argument `myswap` calls), the `if self.swap:` block
— whose line 441 reads the *unbound local* `myformat`, a `NameError` —
the totals consistency checks (print an ERROR and `return None` on
mismatch), the `np.zeros` allocation of `GroupIDs` at `fnb == 0`, and the
ID block copy `self.GroupIDs[skip:skip+Nids] = IDs`. -/
def idsSegment (mf : Nat) (swap : Bool) (idW : Nat) (c : Catalog)
    (skip : Int) (fnb : Nat) (file : Bytes) : Except PyErr IdsOutcome := do
  let hdr ←
    if mf = 1 then do
      let (h3, rem) := npFromfile 4 3 file
      let v3 ← myswapOneArg h3
      match v3 with
      | [gB, tgB, niB] => do
        let (h64, rem2) := npFromfile 8 1 rem
        let tni ← myswapOneArg h64
        let (h3b, rem3) := npFromfile 4 3 rem2
        let v3b ← myswapOneArg h3b
        match v3b with
        | [_nfB, _nsB, _tnsB] =>
          pure (i32Val gB, i32Val tgB, i32Val niB,
                ((tni.map fun b => (leVal b : Int)).headD 0), rem3)
        | _ => .error .valueError
      | _ => .error .valueError
    else do
      -- LEGACY: `(Ngroups,Nids,TotNgroups,Nfiles)=myswap(np.fromfile(f,int32,4))`,
      -- then `TotNids=self.TotNids`
      let (h4, rem) := npFromfile 4 4 file
      let v4 ← myswapOneArg h4
      match v4 with
      | [gB, niB, tgB, _nfB] =>
        match c.TotNids with
        | some tni => pure (i32Val gB, i32Val tgB, i32Val niB, tni, rem)
        | none => .error .attributeError
      | _ => .error .valueError
  let (Ngroups, TotNgroups, Nids, TotNids, rem) := hdr
  -- lines 435-443: the scalar `.byteswap()` calls discard their results, but
  -- `if myformat==1:` then reads a name that is not bound in `read_IDs`
  if swap then .error .nameError
  else
    match c.TotNgroups, c.TotNids with
    | some ctg, some ctni =>
      if TotNgroups ≠ ctg then .ok (.earlyReturn c)
      else if TotNids ≠ ctni then .ok (.earlyReturn c)
      else do
        let c ←
          if fnb = 0 then
            if ctni < 0 then .error .valueError
            else
              let zeroIds : Arr := List.replicate ctni.toNat (some (List.replicate idW 0))
              .ok { c with GroupIDs := some zeroIds }
          else .ok c
        if Ngroups > 0 then do
          let (items, _) := npFromfile idW Nids rem
          let ids ← myswapOneArg items
          -- `if self.swap: IDs=IDs.byteswap(True)` (an in-place second swap)
          let ids := if swap then ids.map (swapItem idW) else ids
          match c.GroupIDs with
          | none => .error .attributeError
          | some g => do
            let g' ← assignSlice g skip (skip + Nids) ids
            .ok (.next { c with GroupIDs := some g' } (skip + Nids))
        else .ok (.next c skip)
    | _, _ => .error .attributeError

/-- The `while not(Final)` loop of `read_IDs`: `n` is the number of
iterations left (the loop stops at `fnb == self.Nfiles`); opening a missing
ID segment file fails. -/
def readIDsAux (mf : Nat) (swap : Bool) (idW : Nat) (files : List Bytes) :
    Nat → Int → Nat → Catalog → Except PyErr Catalog
  | 0, _, _, c => .ok c
  | n + 1, skip, fnb, c =>
    match files[fnb]? with
    | none => .error .ioError
    | some f => do
      match ← idsSegment mf swap idW c skip fnb f with
      | .earlyReturn c' => .ok c'
      | .next c' skip' => readIDsAux mf swap idW files n skip' (fnb + 1) c'

/-- `catalog.read_IDs(verbose=0)` (`ReadSubFind.py` lines 413-485) over the
filesystem `fs`.  The ID path template follows `self.myformat`; for a
snapshot-format object neither branch assigns `fname`, so the later use of
`fname` raises `NameError`.  `self.swap`, `self.Nfiles` and `self.long_IDs`
are read from the object. -/
def read_IDs (c : Catalog) (fs : FS) : Except PyErr Catalog :=
  match c.myformat, c.swap, c.Nfiles, c.long_IDs with
  | some mf, some swap, some nfiles, some lids =>
    let idW : Nat := if lids then 8 else 4
    if mf = 0 then readIDsAux 0 swap idW fs.legacyIds nfiles 0 0 c
    else if mf = 1 then readIDsAux 1 swap idW fs.extIds nfiles 0 0 c
    else .error .nameError
  | _, _, _, _ => .error .attributeError

/-! ## `src/PLC/fullplcfiner.py` — the distributed light-cone pipeline -/

/-- MPI operations performed by `fullplcfiner.py`, in global program order.
`abort` is `comm.Abort()`; `scatterv` is the particle partitioning
(`comm.Scatterv`), `bcast`/`send`/`recv`/`barrier` the other collectives. -/
inductive MpiEvent
  | abort
  | bcast
  | scatterv
  | send
  | recv
  | barrier
  deriving DecidableEq

/-- The run parameters the pipeline's control flow depends on:
`params.nparticles` (`GridSize**3`), the process-group size, the number of
snapshot files, and the number of lens shells (`zip(zlinf, zlsup)`). -/
structure PlcParams where
  nparticles : Nat
  size : Nat
  numfiles : Nat
  nshells : Nat
  deriving DecidableEq

/-- Events of the rank-`ranki` turn of the reduction loop (lines 171-191):
the worker sends its slice and the collector receives it (ranks above 0),
then everyone meets at the barrier. -/
def rankiEvents (ranki : Nat) : List MpiEvent :=
  (if ranki = 0 then [] else [.send, .recv]) ++ [.barrier]

/-- Events of one replication's reduction (the `for ranki in range(size)`
loop). -/
def repEvents (size : Nat) : List MpiEvent :=
  ((List.range size).map rankiEvents).flatten

/-- Events of one lens shell at one snapshot: one reduction per intersecting
replication, then the end-of-shell barrier (line 199). -/
def shellEvents (size nrep : Nat) : List MpiEvent :=
  (List.replicate nrep (repEvents size)).flatten ++ [.barrier]

/-- Events of one snapshot iteration (lines 29-199): the geometry broadcast,
the `Npart` broadcast, six `Scatterv` partitions, then the shells
(`nreps s` = number of replications intersecting shell `s`). -/
def snapEvents (size nshells : Nat) (nreps : Nat → Nat) : List MpiEvent :=
  .bcast :: .bcast :: (List.replicate 6 .scatterv ++
    ((List.range nshells).map fun s => shellEvents size (nreps s)).flatten)

/-- The global event trace of `fullplcfiner.py`: lines 22-26 check
`params.nparticles % size` *before* the snapshot loop and call
`comm.Abort()` on a nonzero remainder; otherwise every snapshot's events
run in order.  `nreps t s` abstracts the external geometry oracle. -/
def plcEvents (p : PlcParams) (nreps : Nat → Nat → Nat) : List MpiEvent :=
  if p.nparticles % p.size ≠ 0 then [.abort]
  else ((List.range p.numfiles).map fun t => snapEvents p.size p.nshells (nreps t)).flatten

/-! ### The accretion-redshift mask and the pixel histogram (lines 164-189) -/

/-- Line 166: `aplcslice[ 1.0/aplcslice - 1 < Zaccslice ] = -1.0` — every
particle whose crossing redshift `1/a - 1` is below its accretion redshift
is overwritten with the sentinel scale factor `-1.0`.  (The solver never
returns `a = 0`: it either converges inside `[amin, amax] ⊂ (0, 1]` or
already reports the negative sentinel.) -/
def maskAccretion (aplc Zacc : List ℚ) : List ℚ :=
  List.zipWith (fun a z => if 1 / a - 1 < z then (-1 : ℚ) else a) aplc Zacc

/-- Modelled from the spec: `builder.getSkyCoordinates` is an external
compiled module, not part of the repository.  Per the spec it converts a
converged scale factor to "a radial distance and two angular coordinates …
returning a sentinel-flagged triple consistent with the crossing result":
the geometric map `geom` (external) is applied to converged particles, and a
sentinel (non-positive) scale factor yields a sentinel triple whose radial
distance is negative. -/
def getSkyCoordinates (geom : ℚ → ℚ × ℚ × ℚ) (a : ℚ) : ℚ × ℚ × ℚ :=
  if 0 < a then geom a else (-1, 0, 0)

/-- The pixel indices contributed by one slice (lines 185-187): keep the
positive-distance coordinates (`cut = skycoordslice[:,0] > 0`), shift the
colatitude by `π/2` (`halfPi` stands for the real constant `np.pi/2`; the
pixelization `ang2pix` is the external healpy oracle). -/
def shellPixels (halfPi : ℚ) (ang2pix : ℚ → ℚ → Nat) (geom : ℚ → ℚ × ℚ × ℚ)
    (aplc : List ℚ) : List Nat :=
  (aplc.map (getSkyCoordinates geom)).filterMap fun c =>
    if 0 < c.1 then some (ang2pix (c.2.1 + halfPi) c.2.2) else none

/-- `np.histogram(pixels, bins=np.linspace(0, npixels, npixels+1))`: integer
bin edges `0, 1, …, npixels`; a pixel `p < npixels` lands in bin `p`, the
right edge `p = npixels` in the last bin, anything larger is out of range. -/
def binOf (npixels p : Nat) : Option Nat :=
  if p < npixels then some p
  else if p = npixels then some (npixels - 1) else none

/-- Line 189: `deltai += np.histogram(pixels, bins)[0]` — fold the pixel
counts into the running shell map. -/
def histAdd (npixels : Nat) (delta : List ℚ) (pixels : List Nat) : List ℚ :=
  delta.mapIdx fun j v => v + (pixels.countP fun p => binOf npixels p = some j)

/-! ### The per-shell map lifecycle across snapshots (lines 85-199) -/

/-- The persistent `Maps/delta_*_field_fullsky_<zl>.fits` store: one entry
per shell key (shell midpoints are assumed to give distinct rounded keys, as
one file is written per shell). -/
abbrev Disk := Nat → Option (List ℚ)

/-- Pointwise sum of two pixel maps. -/
def mapAdd (a b : List ℚ) : List ℚ := List.zipWith (· + ·) a b

/-- `np.zeros(params.npixels)`. -/
def zerosMap (npixels : Nat) : List ℚ := List.replicate npixels 0

/-- The external inputs of the particle pass: `nreps t s` replications of
shell `s` intersect snapshot `t`'s range, and `contrib t s r` is the pixel
histogram that replication `r` adds to shell `s`'s map at snapshot `t`
(the reduction over all ranks of line 189, abstracted). -/
structure ShellCfg where
  numfiles : Nat
  nshells : Nat
  npixels : Nat
  nreps : Nat → Nat → Nat
  contrib : Nat → Nat → Nat → List ℚ

/-- `hp.read_map` of a shell's persisted map; the file must exist. -/
def readMap (disk : Disk) (s : Nat) : Except PyErr (List ℚ) :=
  match disk s with
  | some m => .ok m
  | none => .error .ioError

/-- The replication loop of shell `s` at snapshot `t` (lines 148-191),
accumulating each replication's histogram onto `d`. -/
def repFold (c : ShellCfg) (t s : Nat) (d : List ℚ) : List ℚ :=
  (List.range (c.nreps t s)).foldl (fun acc r => mapAdd acc (c.contrib t s r)) d

/-- One shell iteration at snapshot `t` (lines 89-195): start from the zero
map when `snapnum == 0`, otherwise reopen the shell's persisted map; run all
replications; overwrite the persisted map (`overwrite=True`). -/
def shellStep (c : ShellCfg) (t : Nat) (disk : Disk) (s : Nat) :
    Except PyErr Disk :=
  (if t = 0 then pure (zerosMap c.npixels) else readMap disk s) >>= fun d0 =>
    pure (Function.update disk s (some (repFold c t s d0)))

/-- The first `s` shell iterations of snapshot `t`. -/
def snapPassUpTo (c : ShellCfg) (t : Nat) (disk : Disk) : Nat → Except PyErr Disk
  | 0 => .ok disk
  | s + 1 => do
    let d ← snapPassUpTo c t disk s
    shellStep c t d s

/-- The state of the persistent store after the first `t` snapshot
iterations of the particle pass (all shells of each). -/
def plcRunUpTo (c : ShellCfg) : Nat → Except PyErr Disk
  | 0 => .ok fun _ => none
  | t + 1 => do
    let d ← plcRunUpTo c t
    snapPassUpTo c t d c.nshells

/-- The value `deltai` holds when shell `s` of snapshot `t` begins (line 92
or line 97): the zero map at the first snapshot, otherwise the reopened
persisted map. -/
def shellInitVal (c : ShellCfg) (t s : Nat) : Except PyErr (List ℚ) := do
  let d ← plcRunUpTo c t
  let d' ← snapPassUpTo c t d s
  if t = 0 then pure (zerosMap c.npixels) else readMap d' s

/-- The persisted map of shell `s` right after shell `s` of snapshot `t`
finished (line 195's write). -/
def entryAfterShell (c : ShellCfg) (t s : Nat) : Except PyErr (List ℚ) := do
  let d ← plcRunUpTo c t
  let d' ← snapPassUpTo c t d (s + 1)
  readMap d' s

/-- Specification-side accumulated histogram of shell `s` over the first `t`
snapshots: the zero map plus every replication contribution of snapshots
`0 … t-1`. -/
def accumHist (c : ShellCfg) (t s : Nat) : List ℚ :=
  (List.range t).foldl (fun d u => repFold c u s d) (zerosMap c.npixels)

/-! ## Specification-side definitions (for refinement-style claims) -/

/-- Specification-side statement of the probe order: the first template of
LEGACY, EXTENDED, SNAPSHOT-EMBEDDED whose segment-0 file exists, `none` when
none of the three exists.  (Compared against `guessFormat`.) -/
def priorityFormat (fs : FS) : Option Nat :=
  if fs.legacyTab ≠ [] then some 0
  else if fs.extTab ≠ [] then some 1
  else if fs.snapTab ≠ [] then some 2
  else none

/-- Project a tab-loop outcome to its running `(skipG, skipS)` offsets. -/
def offsetsOf (r : Except PyErr TabLoop) : Except PyErr (Int × Int) :=
  r.map fun st => (st.skipG, st.skipS)

/-- Does an `Except` computation return normally? -/
def exceptOk {ε α : Type} : Except ε α → Bool
  | .ok _ => true
  | .error _ => false

/-! ## Concrete inputs for the claims -/

/-- The 4 little-endian bytes of a 32-bit value. -/
def le4 (n : Nat) : Bytes := [n % 256, n / 256 % 256, n / 256 ^ 2 % 256, n / 256 ^ 3 % 256]

/-- The 8 little-endian bytes of a 64-bit value. -/
def le8 (n : Nat) : Bytes := le4 (n % 2 ^ 32) ++ le4 (n / 2 ^ 32)

/-- A well-formed EXTENDED segment header (native order). -/
def hdr1Bytes (Ng TotNg Nids TotNids Nf Ns TotNs : Nat) : Bytes :=
  le4 Ng ++ le4 TotNg ++ le4 Nids ++ le8 TotNids ++ le4 Nf ++ le4 Ns ++ le4 TotNs

/-- A well-formed EXTENDED segment body for `G` groups and `S` subhalos under
the default options: 60 bytes per group (12 scalar fields and one 3-vector)
and 112 bytes per subhalo (10 scalars, four 3-vectors, the 6-entry mass
table), zero-filled — the scenario constrains layout, not values. -/
def body1Bytes (G S : Nat) : Bytes := List.replicate (60 * G + 112 * S) 0

/-- C1 scenario, segment 0: 3 of 5 groups, 5 of 8 subhalos, 2 files,
10 of 16 IDs. -/
def seg0C1 : Bytes := hdr1Bytes 3 5 10 16 2 5 8 ++ body1Bytes 3 5

/-- C1 scenario, segment 1: the remaining 2 groups and 3 subhalos. -/
def seg1C1 : Bytes := hdr1Bytes 2 5 6 16 2 3 8 ++ body1Bytes 2 3

/-- C1 scenario: the 2-segment EXTENDED catalog, native byte order. -/
def fsC1 : FS :=
  { legacyTab := [], extTab := [seg0C1, seg1C1], snapTab := [],
    groupTabCount := 2, legacyIds := [], extIds := [],
    snapOk := false, snapSwap := false }

/-- C2 scenario: a LEGACY catalog of 2 segment files whose header file-count
field (offset 12) is exactly 2, next to 3 sibling `group_tab` files. -/
def f0C2 : Bytes := le4 9 ++ le4 9 ++ le4 9 ++ le4 2

/-- C2 scenario: the filesystem. -/
def fsC2 : FS :=
  { legacyTab := [f0C2, []], extTab := [], snapTab := [],
    groupTabCount := 3, legacyIds := [], extIds := [],
    snapOk := false, snapSwap := false }

/-- C3/C6 scenario: a valid single-segment EXTENDED catalog (2 groups,
3 subhalos, 5 IDs). -/
def segC3 : Bytes := hdr1Bytes 2 2 5 5 1 3 3 ++ body1Bytes 2 3

/-- C3 scenario: an ID segment whose header reports `TotNgroups = 7` against
the catalog's 2 (and 5 IDs of 4 bytes each). -/
def idsC3 : Bytes :=
  le4 2 ++ le4 7 ++ le4 5 ++ le8 5 ++ le4 1 ++ le4 3 ++ le4 3 ++
    List.replicate 20 0

/-- C3 scenario: the filesystem. -/
def fsC3 : FS :=
  { legacyTab := [], extTab := [segC3], snapTab := [],
    groupTabCount := 1, legacyIds := [], extIds := [idsC3],
    snapOk := false, snapSwap := false }

/-- C6 scenario: a consistent ID segment for `segC6A`/`segC6B`'s catalog
(header `TotNgroups = 2`, `TotNids = 5`, 5 IDs). -/
def idsC6 : Bytes :=
  le4 2 ++ le4 2 ++ le4 5 ++ le8 5 ++ le4 2 ++ le4 3 ++ le4 3 ++
    List.replicate 20 0

/-- C6 witness: segment 0 of a readable 2-segment EXTENDED catalog — it
carries all 2 groups and 3 subhalos (so the source's total-count reads match
the slice widths). -/
def segC6A : Bytes := hdr1Bytes 2 2 5 5 2 3 3 ++ body1Bytes 2 3

/-- C6 witness: segment 1, declaring 0 groups and 0 subhalos (header only). -/
def segC6B : Bytes := hdr1Bytes 0 2 0 5 2 0 3

/-- C6 scenario: the filesystem of the 2-segment catalog with a consistent
ID segment. -/
def fsC6 : FS :=
  { legacyTab := [], extTab := [segC6A, segC6B], snapTab := [],
    groupTabCount := 2, legacyIds := [], extIds := [idsC6, idsC6],
    snapOk := false, snapSwap := false }

/-- C4 scenario: a valid single-segment LEGACY catalog — header
`(Ngroups, Nids, TotNgroups, Nfiles, Nsubhalos) = (1, 4, 1, 1, 1)` (the
file-count field at offset 12 is 1, matching both the 1 probed segment and
the 1 sibling `group_tab` file), followed by its 120-byte body (one group,
one subhalo, default options). -/
def legSegC4 : Bytes :=
  le4 1 ++ le4 4 ++ le4 1 ++ le4 1 ++ le4 1 ++ List.replicate 120 0

/-- C4 scenario: the LEGACY filesystem. -/
def fsC4 : FS :=
  { legacyTab := [legSegC4], extTab := [], snapTab := [],
    groupTabCount := 1, legacyIds := [], extIds := [],
    snapOk := false, snapSwap := false }

/-- C4 scenario: the fully byte-swapped copy — every scalar of the LEGACY
segment is 4 bytes wide, so the copy reverses each 4-byte group. -/
def fsC4swap : FS := { fsC4 with legacyTab := [swapItem 4 legSegC4] }

/-- C5 witness: only the EXTENDED template exists, one segment whose
file-count field (offset 20) is 1. -/
def fsW5 : FS :=
  { legacyTab := [], extTab := [List.replicate 20 0 ++ le4 1], snapTab := [],
    groupTabCount := 0, legacyIds := [], extIds := [],
    snapOk := false, snapSwap := false }

/-- C10 witness: only the SNAPSHOT-EMBEDDED template exists and the external
snapshot reader recognises it. -/
def fsC10 : FS :=
  { legacyTab := [], extTab := [], snapTab := [[]],
    groupTabCount := 0, legacyIds := [], extIds := [],
    snapOk := true, snapSwap := false }

/-- C8 witness: 5 particles cannot be scattered over 2 ranks. -/
def pW8 : PlcParams := { nparticles := 5, size := 2, numfiles := 1, nshells := 1 }

/-! ## Claim theorems -/

/-- C1: the claim — that a well-formed 2-segment EXTENDED catalog
(segment 0: 3 groups, 5 subhalos; segment 1: 2 groups, 3 subhalos; native
order) is read with `total_groups = 5`, `total_subhalos = 8` and
block-for-block array contents — fails on the code.  Format and byte-order
detection succeed and the segment headers declare exactly the scenario's
counts, but `catalog.__init__` passes the catalog-wide totals
(`count=self.TotNgroups` = 5, `count=self.TotNsubhalos` = 8) to every
per-segment `np.fromfile` instead of the segment's own counts (3, 5), so the
first block assignment of segment 0 receives 5 items for a 3-element slice
and the constructor aborts with `ValueError`: no totals and no arrays are
ever produced. -/
theorem C1_extended_read_fails :
    guessFormat fsC1 = .ok (2, 1, false) ∧
    segNgroups1 false seg0C1 = 3 ∧ segNsubhalos1 false seg0C1 = 5 ∧
    segNgroups1 false seg1C1 = 2 ∧ segNsubhalos1 false seg1C1 = 3 ∧
    catalogInit fsC1 {} = .error .valueError := by
  decide

/-- C2: the claim — that detection compares the raw and byte-swapped
file-count field against the independently probed segment count — fails on
the LEGACY branch.  For a LEGACY catalog of 2 probed segments whose header
field at offset 12 is exactly 2, next to 3 sibling `group_tab` files, the
code compares the raw value against the `group_tab` count (`test = 3`,
despite the in-code comment "this should be =nfiles") and the swapped value
against 2, so it raises `UnrecognizedFormatError` where the claim requires
native-order success. -/
theorem C2_legacy_detection_mismatch :
    (readU32At f0C2 12).map leVal = some 2 ∧
    fsC2.legacyTab.length = 2 ∧
    guessFormat fsC2 = .error .unrecognizedFormat := by
  decide

/-- C3: the claim — that a totals mismatch makes `read_IDs` raise
`CatalogInconsistencyError` — fails on the code.  On a valid 1-segment
EXTENDED catalog (2 groups) with an ID segment whose header reports
`TotNgroups = 7`, `read_IDs` aborts with `TypeError` at its very first
header read (`myswap` called with one argument, line 427), before the
consistency comparison can run; no ID is ever committed, but for the wrong
reason, and even the mismatch branch itself would only print and
`return None`. -/
theorem C3_read_ids_raises_type_error :
    exceptOk (catalogInit fsC3 {}) = true ∧
    (catalogInit fsC3 {}).bind (fun c => read_IDs c fsC3) = .error .typeError := by
  decide

/-- C4: the claim — that a byte-swapped copy of every valid segment set is
read back to identical arrays, for every supported format — fails on the
LEGACY format.  For a valid 1-segment LEGACY catalog, byte-order detection
succeeds on both the original (native) and the swapped copy (swapped), but
`catalog.__init__` then executes `self.TotNids = long(0)` (line 247) and
`long` does not exist under Python 3, so *both* reads abort with `NameError`
and the swapped copy reproduces no arrays at all. -/
theorem C4_legacy_roundtrip_fails :
    guessFormat fsC4 = .ok (1, 0, false) ∧
    guessFormat fsC4swap = .ok (1, 0, true) ∧
    catalogInit fsC4 {} = .error .nameError ∧
    catalogInit fsC4swap {} = .error .nameError := by
  decide

/-- C5: `guess_format` probes LEGACY, then EXTENDED, then SNAPSHOT-EMBEDDED,
selects the first template whose segment-0 file exists (whatever format tag
it then returns comes from that template), and reports
`FormatNotFoundError` exactly when none of the three segment-0 files
exists. -/
theorem C5_probe_priority (fs : FS) :
    (guessFormat fs = .error .formatNotFound ↔
      fs.legacyTab = [] ∧ fs.extTab = [] ∧ fs.snapTab = []) ∧
    (∀ n m s, guessFormat fs = .ok (n, m, s) → priorityFormat fs = some m) := by
  obtain ⟨lt, et, st, g, li, ei, so, ss⟩ := fs
  cases lt with
  | cons f0 rest =>
    constructor
    · constructor
      · intro h
        simp only [guessFormat] at h
        cases hr : readU32At f0 12 with
        | none => rw [hr] at h; exact absurd h (by simp)
        | some nb => rw [hr] at h; dsimp only at h; split_ifs at h <;> simp_all
      · intro h
        exact absurd h.1 (by simp)
    · intro n m s h
      simp only [guessFormat] at h
      cases hr : readU32At f0 12 with
      | none => rw [hr] at h; exact absurd h (by simp)
      | some nb => rw [hr] at h; dsimp only at h; split_ifs at h <;> simp_all [priorityFormat]
  | nil =>
    cases et with
    | cons f0 rest =>
      constructor
      · constructor
        · intro h
          simp only [guessFormat] at h
          cases hr : readU32At f0 20 with
          | none => rw [hr] at h; exact absurd h (by simp)
          | some nb => rw [hr] at h; dsimp only at h; split_ifs at h <;> simp_all
        · intro h
          exact absurd h.2.1 (by simp)
      · intro n m s h
        simp only [guessFormat] at h
        cases hr : readU32At f0 20 with
        | none => rw [hr] at h; exact absurd h (by simp)
        | some nb => rw [hr] at h; dsimp only at h; split_ifs at h <;> simp_all [priorityFormat]
    | nil =>
      cases st with
      | cons f0 rest =>
        constructor
        · constructor
          · intro h
            simp only [guessFormat] at h
            split_ifs at h <;> simp_all
          · intro h
            exact absurd h.2.2 (by simp)
        · intro n m s h
          simp only [guessFormat] at h
          split_ifs at h <;> simp_all [priorityFormat]
      | nil =>
        constructor
        · simp [guessFormat, priorityFormat]
        · intro n m s h
          exact absurd h (by simp [guessFormat])

/-- C5 witness: on a filesystem where only the EXTENDED template exists (and
its header field matches), the theorem instantiates to the priority
choice 1. -/
theorem C5_probe_priority_witness : priorityFormat fsW5 = some 1 :=
  (C5_probe_priority fsW5).2 1 1 false (by decide)

/-- C10: when discovery reports the SNAPSHOT-EMBEDDED format,
`catalog.__init__` returns right after storing `myformat` and `swap`: the
resulting object carries no totals and no aggregate arrays (every other
attribute is unset) and no exception is raised. -/
theorem C10_snapshot_embedded_early_return (fs : FS) (o : Opts) (n : Nat)
    (s : Bool) (h : guessFormat fs = .ok (n, 2, s)) :
    catalogInit fs o = .ok { myformat := some 2, swap := some s } ∧
    Catalog.TotNgroups { myformat := some 2, swap := some s } = none ∧
    Catalog.TotNsubhalos { myformat := some 2, swap := some s } = none ∧
    Catalog.TotNids { myformat := some 2, swap := some s } = none ∧
    Catalog.SubPos { myformat := some 2, swap := some s } = none ∧
    Catalog.GroupIDs { myformat := some 2, swap := some s } = none := by
  refine ⟨?_, rfl, rfl, rfl, rfl, rfl⟩
  simp [catalogInit, h]

/-- C10 witness: the snapshot-embedded filesystem `fsC10`. -/
theorem C10_snapshot_embedded_witness :
    catalogInit fsC10 {} = .ok { myformat := some 2, swap := some false } ∧
    Catalog.TotNgroups { myformat := some 2, swap := some false } = none ∧
    Catalog.TotNsubhalos { myformat := some 2, swap := some false } = none ∧
    Catalog.TotNids { myformat := some 2, swap := some false } = none ∧
    Catalog.SubPos { myformat := some 2, swap := some false } = none ∧
    Catalog.GroupIDs { myformat := some 2, swap := some false } = none :=
  C10_snapshot_embedded_early_return fsC10 {} 1 false (by decide)

/-- C8: when the global particle count is not divisible by the worker count,
the pipeline's whole event trace is the single `comm.Abort()` — no particle
partitioning (`Scatterv`) and no other collective operation ever happens. -/
theorem C8_divisibility_abort (p : PlcParams) (nreps : Nat → Nat → Nat)
    (h : p.nparticles % p.size ≠ 0) :
    plcEvents p nreps = [.abort] ∧
    MpiEvent.scatterv ∉ plcEvents p nreps ∧
    MpiEvent.bcast ∉ plcEvents p nreps ∧
    MpiEvent.send ∉ plcEvents p nreps ∧
    MpiEvent.recv ∉ plcEvents p nreps ∧
    MpiEvent.barrier ∉ plcEvents p nreps := by
  have habort : plcEvents p nreps = [.abort] := by
    simp [plcEvents, h]
  rw [habort]
  refine ⟨rfl, by simp, by simp, by simp, by simp, by simp⟩

/-- A fixed replication-count oracle for the C8 witness. -/
def oneRep : Nat → Nat → Nat := fun _ _ => 1

/-- C8 witness: 5 particles over 2 ranks abort before any collective. -/
theorem C8_divisibility_abort_witness :
    plcEvents pW8 oneRep = [.abort] ∧
    MpiEvent.scatterv ∉ plcEvents pW8 oneRep ∧
    MpiEvent.bcast ∉ plcEvents pW8 oneRep ∧
    MpiEvent.send ∉ plcEvents pW8 oneRep ∧
    MpiEvent.recv ∉ plcEvents pW8 oneRep ∧
    MpiEvent.barrier ∉ plcEvents pW8 oneRep :=
  C8_divisibility_abort pW8 oneRep (by decide)

/-- Helper: a list element mapped to `none` contributes nothing to a
`filterMap`, so deleting it leaves the result unchanged. -/
theorem filterMap_eraseIdx_of_none {α β : Type} (f : α → Option β)
    (l : List α) (i : Nat) (hi : i < l.length) (h : f l[i] = none) :
    l.filterMap f = (l.eraseIdx i).filterMap f := by
  have hdecomp : l = l.take i ++ l[i] :: l.drop (i + 1) := by
    rw [List.getElem_cons_drop l i hi, List.take_append_drop]
  rw [List.eraseIdx_eq_take_drop_succ]
  calc l.filterMap f
      = (l.take i ++ l[i] :: l.drop (i + 1)).filterMap f := by rw [← hdecomp]
    _ = (l.take i).filterMap f ++ (l[i] :: l.drop (i + 1)).filterMap f := by
        rw [List.filterMap_append]
    _ = (l.take i).filterMap f ++ (l.drop (i + 1)).filterMap f := by
        rw [List.filterMap_cons, h]
    _ = (l.take i ++ l.drop (i + 1)).filterMap f := by rw [List.filterMap_append]

/-- C7: a particle whose accretion redshift exceeds its computed crossing
redshift (`1/a - 1 < Zacc`, line 166) is overwritten with the sentinel
scale factor `-1.0`, its sky triple is sentinel-flagged, and it contributes
no pixel to the shell histogram: the pixel list — and hence the histogram
update of line 189 — is the same as if the particle were absent. -/
theorem C7_accretion_mask_excludes (halfPi : ℚ) (ang2pix : ℚ → ℚ → Nat)
    (geom : ℚ → ℚ × ℚ × ℚ) (npixels : Nat) (delta : List ℚ)
    (aplc Zacc : List ℚ) (i : Nat) (hi : i < aplc.length)
    (hz : i < Zacc.length) (hcross : 1 / aplc[i] - 1 < Zacc[i]) :
    (maskAccretion aplc Zacc)[i]? = some (-1) ∧
    shellPixels halfPi ang2pix geom (maskAccretion aplc Zacc) =
      shellPixels halfPi ang2pix geom ((maskAccretion aplc Zacc).eraseIdx i) ∧
    histAdd npixels delta
        (shellPixels halfPi ang2pix geom (maskAccretion aplc Zacc)) =
      histAdd npixels delta
        (shellPixels halfPi ang2pix geom ((maskAccretion aplc Zacc).eraseIdx i)) := by
  have hlen : i < (maskAccretion aplc Zacc).length := by
    simp [maskAccretion, List.length_zipWith]
    omega
  have hmask : (maskAccretion aplc Zacc)[i] = -1 := by
    simp only [maskAccretion]
    rw [List.getElem_zipWith, if_pos hcross]
  have hpix : shellPixels halfPi ang2pix geom (maskAccretion aplc Zacc) =
      shellPixels halfPi ang2pix geom ((maskAccretion aplc Zacc).eraseIdx i) := by
    simp only [shellPixels, List.filterMap_map]
    refine filterMap_eraseIdx_of_none _ _ i hlen ?_
    simp only [Function.comp_apply, hmask, getSkyCoordinates]
    norm_num
  refine ⟨?_, hpix, by rw [hpix]⟩
  rw [List.getElem?_eq_getElem hlen, hmask]

/-- Fixed external oracles for the C7 witness. -/
def geomW7 : ℚ → ℚ × ℚ × ℚ := fun _ => (1, 0, 0)

/-- Fixed pixelization oracle for the C7 witness. -/
def ang2pixW7 : ℚ → ℚ → Nat := fun _ _ => 0

/-- C7 witness: the spec scenario — accretion redshift 5.0, crossing
redshift 3.0 (scale factor 1/4) — is masked and absent from the pixel
histogram. -/
theorem C7_accretion_mask_excludes_witness :
    (maskAccretion [1 / 4] [5])[0]? = some ((-1 : ℚ)) ∧
    shellPixels 0 ang2pixW7 geomW7 (maskAccretion [1 / 4] [5]) =
      shellPixels 0 ang2pixW7 geomW7 ((maskAccretion [1 / 4] [5]).eraseIdx 0) ∧
    histAdd 2 [0, 0] (shellPixels 0 ang2pixW7 geomW7 (maskAccretion [1 / 4] [5])) =
      histAdd 2 [0, 0]
        (shellPixels 0 ang2pixW7 geomW7 ((maskAccretion [1 / 4] [5]).eraseIdx 0)) :=
  C7_accretion_mask_excludes 0 ang2pixW7 geomW7 2 [0, 0] [1 / 4] [5] 0
    (by decide) (by decide) (by norm_num)

/-- `pure` of the `Except` monad. -/
theorem except_pure {ε α : Type} (a : α) : (pure a : Except ε α) = Except.ok a := rfl

/-- `Except` bind on a normal value. -/
theorem except_bind_ok {ε α β : Type} (a : α) (f : α → Except ε β) :
    (Except.ok a >>= f) = f a := rfl

/-- `Except` bind on an error. -/
theorem except_bind_error {ε α β : Type} (e : ε) (f : α → Except ε β) :
    ((Except.error e : Except ε α) >>= f) = Except.error e := rfl

/-- Helper for C6: one successful tab-segment iteration advances `skipG` and
`skipS` by exactly the header-declared `Ngroups` and `Nsubhalos` of that
segment (the updates of lines 399-400 are unconditional). -/
theorem tabSegment1_offsets (o : Opts) (swap : Bool) (fnb : Nat)
    (st st' : TabLoop) (f : Bytes)
    (h : tabSegment1 o swap fnb st f = .ok st') :
    st'.skipG = st.skipG + segNgroups1 swap f ∧
    st'.skipS = st.skipS + segNsubhalos1 swap f := by
  unfold tabSegment1 at h
  split at h
  next e heq => exact absurd h (by simp)
  next hd heq =>
    split at h
    all_goals
      dsimp only at h
      split at h
      next => exact absurd h (by simp)
      next c' hm =>
        cases h
        simp [segNgroups1, segNsubhalos1, heq]

/-- Helper for C6: over any run of consecutive successful tab-segment
iterations, the offsets advance by the sum of the header-declared
per-segment counts. -/
theorem tabReadAux_offsets (o : Opts) (swap : Bool) (segs : List Bytes) :
    ∀ (fnb : Nat) (st st' : TabLoop),
    tabReadAux o swap fnb st segs = .ok st' →
    st'.skipG = st.skipG + (segs.map (segNgroups1 swap)).sum ∧
    st'.skipS = st.skipS + (segs.map (segNsubhalos1 swap)).sum := by
  induction segs with
  | nil =>
    intro fnb st st' h
    cases h
    simp
  | cons f rest ih =>
    intro fnb st st' h
    simp only [tabReadAux] at h
    cases hs : tabSegment1 o swap fnb st f with
    | error e => rw [hs, except_bind_error] at h; exact absurd h (by simp)
    | ok st1 =>
      rw [hs, except_bind_ok] at h
      obtain ⟨hg, hsS⟩ := ih (fnb + 1) st1 st' h
      obtain ⟨hg1, hs1⟩ := tabSegment1_offsets o swap fnb st st1 f hs
      constructor
      · rw [hg, hg1, List.map_cons, List.sum_cons, add_assoc]
      · rw [hsS, hs1, List.map_cons, List.sum_cons, add_assoc]

/-- C6: the offset invariant.  First part — in the only tab-reading path the
code can reach (the EXTENDED format; LEGACY dies at `long(0)` and
SNAPSHOT-EMBEDDED returns early), after processing segments `0..k` the
running group and subhalo offsets equal the sums of the header-declared
per-segment counts of those segments.  Second part — the ID-offset half of
the claim fails on the code: `read_IDs` on a valid 2-segment catalog with
fully consistent ID segments aborts with `TypeError` (one-argument `myswap`,
line 427) before processing any ID segment, so the running ID offset never
advances at all. -/
theorem C6_offset_invariant :
    (∀ (o : Opts) (swap : Bool) (segs : List Bytes) (k : Nat) (st' : TabLoop),
      tabReadAux o swap 0 (initTabLoop o swap segs.length) (segs.take (k + 1)) = .ok st' →
      st'.skipG = ((segs.take (k + 1)).map (segNgroups1 swap)).sum ∧
      st'.skipS = ((segs.take (k + 1)).map (segNsubhalos1 swap)).sum) ∧
    exceptOk (catalogInit fsC6 {}) = true ∧
    (catalogInit fsC6 {}).bind (fun c => read_IDs c fsC6) = .error .typeError := by
  refine ⟨?_, by decide, by decide⟩
  intro o swap segs k st' h
  have := tabReadAux_offsets o swap (segs.take (k + 1)) 0 (initTabLoop o swap segs.length) st' h
  simpa [initTabLoop] using this

/-- C6 witness: the 2-segment EXTENDED catalog `fsC6` — after segment 1 the
offsets are `2 + 0 = 2` groups and `3 + 0 = 3` subhalos. -/
theorem C6_offset_invariant_witness :
    offsetsOf (tabReadAux {} false 0 (initTabLoop {} false 2)
      (List.take 2 [segC6A, segC6B])) = .ok (2, 3) := by
  cases h : tabReadAux {} false 0 (initTabLoop {} false 2)
      (List.take 2 [segC6A, segC6B]) with
  | error e =>
    have hT : exceptOk (tabReadAux {} false 0 (initTabLoop {} false 2)
        (List.take 2 [segC6A, segC6B])) = true := by decide
    rw [h] at hT
    exact absurd hT (by simp [exceptOk])
  | ok st =>
    obtain ⟨hg, hs⟩ := C6_offset_invariant.1 {} false [segC6A, segC6B] 1 st h
    have h2 : ((List.take 2 [segC6A, segC6B]).map (segNgroups1 false)).sum = 2 := by
      decide
    have h3 : ((List.take 2 [segC6A, segC6B]).map (segNsubhalos1 false)).sum = 3 := by
      decide
    rw [h2] at hg
    rw [h3] at hs
    simp [offsetsOf, h, Except.map, hg, hs]

/-- The store state the pipeline reaches after `t` snapshot iterations:
before the first snapshot nothing is persisted; afterwards every shell holds
its accumulated histogram. -/
def diskAt (c : ShellCfg) (t : Nat) : Disk :=
  fun j => if j < c.nshells ∧ 0 < t then some (accumHist c t j) else none

/-- Helper for C9: one more snapshot folds its replications onto the
accumulated histogram. -/
theorem accumHist_succ (c : ShellCfg) (t s : Nat) :
    accumHist c (t + 1) s = repFold c t s (accumHist c t s) := by
  simp [accumHist, List.range_succ]

/-- Helper for C9: one shell iteration whose initial value resolves to the
accumulated histogram persists the next accumulated histogram. -/
theorem shellStep_char (c : ShellCfg) (t : Nat) (disk : Disk) (s : Nat)
    (h0 : (if t = 0 then (pure (zerosMap c.npixels) : Except PyErr (List ℚ))
           else readMap disk s) = .ok (accumHist c t s)) :
    shellStep c t disk s =
      .ok (Function.update disk s (some (accumHist c (t + 1) s))) := by
  unfold shellStep
  rw [h0, except_bind_ok]
  rw [← accumHist_succ, except_pure]

/-- Helper for C9: the first `s` shell iterations of snapshot `t` only
advance the first `s` persisted entries, provided the store holds the
accumulated histograms of snapshot `t` (vacuous at `t = 0`, where shells
start from the zero map). -/
theorem snapPassUpTo_char (c : ShellCfg) (t : Nat) (d : Disk)
    (hd : ∀ j, j < c.nshells → (t = 0 ∨ d j = some (accumHist c t j))) :
    ∀ s, s ≤ c.nshells →
    snapPassUpTo c t d s =
      .ok (fun j => if j < s then some (accumHist c (t + 1) j) else d j) := by
  intro s
  induction s with
  | zero =>
    intro _
    have hfun : (fun j => if j < 0 then some (accumHist c (t + 1) j) else d j) = d := by
      funext j
      simp
    simp only [snapPassUpTo, hfun]
  | succ s ih =>
    intro hs1
    have hsn : s < c.nshells := hs1
    simp only [snapPassUpTo, ih (le_of_lt hsn), except_bind_ok]
    have h0 : (if t = 0 then (pure (zerosMap c.npixels) : Except PyErr (List ℚ))
        else readMap (fun j => if j < s then some (accumHist c (t + 1) j) else d j) s) =
        .ok (accumHist c t s) := by
      cases t with
      | zero => simp [accumHist, except_pure]
      | succ t' =>
        rcases hd s hsn with h0 | hds
        · exact absurd h0 (by simp)
        · simp [readMap, hds]
    rw [shellStep_char c t _ s h0]
    congr 1
    funext j
    by_cases hj : j = s
    · subst hj
      rw [Function.update_same]
      simp
    · rw [Function.update_noteq hj]
      rcases Nat.lt_trichotomy j s with hlt | heq | hgt
      · simp [hlt, Nat.lt_succ_of_lt hlt]
      · exact absurd heq hj
      · have h1 : ¬ j < s := by omega
        have h2 : ¬ j < s + 1 := by omega
        simp [h1, h2]

/-- Helper for C9: after `t` snapshot iterations the persisted store is
exactly `diskAt c t`. -/
theorem plcRunUpTo_char (c : ShellCfg) : ∀ t, plcRunUpTo c t = .ok (diskAt c t) := by
  intro t
  induction t with
  | zero =>
    simp only [plcRunUpTo]
    congr 1
    funext j
    simp [diskAt]
  | succ t ih =>
    have hd : ∀ j, j < c.nshells → (t = 0 ∨ diskAt c t j = some (accumHist c t j)) := by
      intro j hj
      cases t with
      | zero => exact Or.inl rfl
      | succ t' => exact Or.inr (by simp [diskAt, hj])
    simp only [plcRunUpTo, ih, except_bind_ok]
    rw [snapPassUpTo_char c t (diskAt c t) hd c.nshells le_rfl]
    congr 1
    funext j
    by_cases hj : j < c.nshells
    · simp [diskAt, hj]
    · simp [diskAt, hj]

/-- Helper for C9: the value `deltai` starts from at shell `s` of
snapshot `t` is the histogram accumulated over the previous snapshots
(the zero map when `t = 0`). -/
theorem shellInitVal_char (c : ShellCfg) (t s : Nat) (hs : s < c.nshells) :
    shellInitVal c t s = .ok (accumHist c t s) := by
  have hd : ∀ j, j < c.nshells → (t = 0 ∨ diskAt c t j = some (accumHist c t j)) := by
    intro j hj
    cases t with
    | zero => exact Or.inl rfl
    | succ t' => exact Or.inr (by simp [diskAt, hj])
  unfold shellInitVal
  rw [plcRunUpTo_char, except_bind_ok,
    snapPassUpTo_char c t (diskAt c t) hd s (le_of_lt hs), except_bind_ok]
  cases t with
  | zero => simp [accumHist, except_pure]
  | succ t' => simp [readMap, diskAt, hs]

/-- Helper for C9: right after shell `s` of snapshot `t`, the persisted map
holds the histogram accumulated through snapshot `t`. -/
theorem entryAfterShell_char (c : ShellCfg) (t s : Nat) (hs : s < c.nshells) :
    entryAfterShell c t s = .ok (accumHist c (t + 1) s) := by
  have hd : ∀ j, j < c.nshells → (t = 0 ∨ diskAt c t j = some (accumHist c t j)) := by
    intro j hj
    cases t with
    | zero => exact Or.inl rfl
    | succ t' => exact Or.inr (by simp [diskAt, hj])
  unfold entryAfterShell
  rw [plcRunUpTo_char, except_bind_ok,
    snapPassUpTo_char c t (diskAt c t) hd (s + 1) hs, except_bind_ok]
  simp [readMap, Nat.lt_succ_self]

/-- C9: a shell's histogram starts from the zero map only at the very first
snapshot (`accumHist c 0 s` is the zero map and is what shell `s` starts
from at `t = 0`); at every later snapshot the value it starts from is
exactly the map persisted after the same shell of the previous snapshot
(reloaded, not recomputed), and after the snapshot's last replication the
shell's persisted map is overwritten with the new accumulated histogram. -/
theorem C9_shell_map_lifecycle (c : ShellCfg) (t s : Nat) (hs : s < c.nshells) :
    shellInitVal c t s = .ok (accumHist c t s) ∧
    accumHist c 0 s = zerosMap c.npixels ∧
    (0 < t → shellInitVal c t s = entryAfterShell c (t - 1) s) ∧
    entryAfterShell c t s = .ok (accumHist c (t + 1) s) := by
  refine ⟨shellInitVal_char c t s hs, by simp [accumHist], ?_,
    entryAfterShell_char c t s hs⟩
  intro ht
  rw [shellInitVal_char c t s hs, entryAfterShell_char c (t - 1) s hs,
    Nat.sub_add_cancel ht]

/-- External inputs for the C9 witness: 2 snapshots, 1 shell, 1 pixel, one
replication contributing `[1]` each time. -/
def cW9 : ShellCfg :=
  { numfiles := 2, nshells := 1, npixels := 1, nreps := oneRep,
    contrib := fun _ _ _ => [1] }

/-- C9 witness: at the second snapshot the shell map is reloaded from the
persisted state of the first and overwritten afterwards. -/
theorem C9_shell_map_lifecycle_witness :
    shellInitVal cW9 1 0 = .ok (accumHist cW9 1 0) ∧
    shellInitVal cW9 1 0 = entryAfterShell cW9 0 0 ∧
    entryAfterShell cW9 1 0 = .ok (accumHist cW9 2 0) := by
  obtain ⟨h1, _, h3, h4⟩ := C9_shell_map_lifecycle cW9 1 0 (by decide)
  exact ⟨h1, h3 (by decide), h4⟩

end Geppetto
